import Mathlib

/-!
Shallow embedding of the order-status dashboard core (src/src/App.jsx):
time-window resolution, order fetching state, workflow-tab classification,
and the coordinate-to-area enrichment cache (resolveAreaName).
-/

namespace KhasApp

/-- One entry of an order's `meta_data` array (`key`/`value`). -/
structure MetaItem where
  key : String
  value : String
deriving DecidableEq

/-- The order fields the modelled core reads.  `meta_data` is optional
(`order.meta_data?.` in the source uses optional chaining). -/
structure Order where
  id : Nat
  number : String
  status : String
  meta_data : Option (List MetaItem)
deriving DecidableEq

/-- One workflow tab from the `TABS` constant (icon omitted: presentation only). -/
structure Tab where
  id : String
  label : String
  status : List String
deriving DecidableEq

/-- The `TABS` constant (App.jsx lines 23-29). -/
def TABS : List Tab :=
  [ { id := "created", label := "New", status := ["pending", "on-hold"] },
    { id := "processed", label := "Processed", status := ["processing"] },
    { id := "dispersed", label := "Dispersed", status := ["dispatched"] },
    { id := "completed", label := "Completed", status := ["completed"] },
    { id := "canceled", label := "Canceled", status := ["cancelled"] } ]

/-- The union of all statuses appearing in `TABS`. -/
def knownStatuses : List String :=
  ["pending", "on-hold", "processing", "dispatched", "completed", "cancelled"]

/-- `filteredOrders` (App.jsx lines 111-114): look up the active tab in `TABS`
and keep the orders whose status the tab lists.  `none` models the fault the
source would hit (`currentTab.status` on `undefined`) for a tab id that is not
in `TABS`; the app only ever sets `activeTab` to an id from `TABS`. -/
def filteredOrders (orders : List Order) (activeTab : String) : Option (List Order) :=
  (TABS.find? (fun t => t.id == activeTab)).map
    (fun currentTab => orders.filter (fun order => currentTab.status.contains order.status))

/-- One row of the `DATE_FILTERS` constant. -/
structure DateFilter where
  id : String
  label : String
  days : Int
deriving DecidableEq

/-- The `DATE_FILTERS` constant (App.jsx lines 31-36). -/
def DATE_FILTERS : List DateFilter :=
  [ { id := "daily", label := "Daily", days := 0 },
    { id := "3day", label := "3 Days", days := 3 },
    { id := "weekly", label := "Weekly", days := 7 },
    { id := "monthly", label := "Monthly", days := 30 } ]

/-- Failure of the window lookup: in the source, `DATE_FILTERS.find(...)` on an
unrecognized name yields `undefined` and the following `.days` access throws. -/
inductive ConfigError where
  | unknownWindow (name : String)
deriving DecidableEq

/-- Instants are minutes since an epoch; one day is 1440 minutes. -/
def minutesPerDay : Int := 1440

/-- `startOfDay` from date-fns: truncate an instant to the start of its day. -/
def startOfDay (t : Int) : Int := t - t % minutesPerDay

/-- `subDays` from date-fns: go back a whole number of days. -/
def subDays (t : Int) (d : Int) : Int := t - d * minutesPerDay

/-- The window-to-boundary step inside `fetchOrders` (App.jsx lines 55-56):
find the filter row for the window name and compute
`startOfDay(subDays(now, filter.days))`.  An unrecognized name faults
(`filter.days` on `undefined`), modelled as the `ConfigError` branch. -/
def resolveBoundary (windowName : String) (now : Int) : Except ConfigError Int :=
  match DATE_FILTERS.find? (fun f => f.id == windowName) with
  | none => .error (.unknownWindow windowName)
  | some filter => .ok (startOfDay (subDays now filter.days))

/-- The area-name cache (`areaNames` state, a JS object keyed by order id).
Modelled as an association list: `setArea` conses the new binding in front and
`lookupArea` takes the first match, which is exactly the JS spread
`(prev) => (..prev with [orderId] set)` overwrite semantics. -/
abbrev AreaMap := List (Nat × String)

/-- Read `areaNames[orderId]`. -/
def lookupArea (m : AreaMap) (id : Nat) : Option String :=
  (List.find? (fun p => p.1 == id) m).map (fun p => p.2)

/-- Write `areaNames[orderId] = area` (JS object spread: overwrites). -/
def setArea (m : AreaMap) (id : Nat) (area : String) : AreaMap :=
  (id, area) :: m

/-- JS truthiness of `areaNames[orderId]`: present and not the empty string. -/
def entryTruthy (m : AreaMap) (id : Nat) : Bool :=
  match lookupArea m id with
  | some s => !(s == "")
  | none => false

/-- The `address` sub-object of a geocoding response; each field is an
optional string as in the Nominatim JSON. -/
structure Address where
  suburb : Option String
  neighbourhood : Option String
  city_district : Option String
  city : Option String
deriving DecidableEq

/-- A parsed geocoding response body; `address := none` models a JSON body
with no `address` member (e.g. a Nominatim error body), on which
`data.address.suburb` throws in the source. -/
structure GeoResponse where
  address : Option Address
deriving DecidableEq

/-- Outcome of the outbound reverse-geocoding fetch: either the fetch or the
JSON parse throws, or a response body is obtained. -/
inductive GeoOutcome where
  | netFail
  | response (r : GeoResponse)
deriving DecidableEq

/-- The request issued to the geocoding endpoint, determined by the `lat` and
`lon` query components interpolated into the URL. -/
structure GeoRequest where
  lat : String
  lon : String
deriving DecidableEq

/-- JS `a || b` where `a` is a possibly-absent string: keep `a` when it is
truthy (present and nonempty), otherwise fall through to `b`. -/
def jsOr (a : Option String) (b : String) : String :=
  match a with
  | some s => if s == "" then b else s
  | none => b

/-- The area label extracted from a response (App.jsx line 84):
`address.suburb || address.neighbourhood || address.city_district ||
address.city || the fixed fallback label`. -/
def extractArea (a : Address) : String :=
  jsOr a.suburb (jsOr a.neighbourhood (jsOr a.city_district (jsOr a.city "Location Linked")))

/-- JS truthiness of a possibly-absent string field. -/
def jsTruthy (a : Option String) : Bool :=
  match a with
  | some s => !(s == "")
  | none => false

/-- A geocoding outcome that lands in the `catch` of `resolveAreaName`
(network or parse failure) or whose body has no `address` member (on which
`data.address.suburb` throws, also caught). -/
def outcomeUnusable : GeoOutcome → Bool
  | .netFail => true
  | .response r => r.address == none

/-- JS `c.isWhitespace`-style predicate used by `String.prototype.trim`. -/
def isWs (c : Char) : Bool := c.isWhitespace

/-- Drop leading whitespace (`trim`, left half). -/
def trimLeftC (l : List Char) : List Char := l.dropWhile isWs

/-- Drop trailing whitespace (`trim`, right half). -/
def trimRightC (l : List Char) : List Char := (l.reverse.dropWhile isWs).reverse

/-- JS `String.prototype.trim`: strip whitespace from both ends. -/
def trimC (l : List Char) : List Char := trimRightC (trimLeftC l)

/-- JS `String.prototype.split(',')` on the underlying character list:
`"" -> [""]`, and each comma starts a new (possibly empty) group. -/
def splitOnComma : List Char → List (List Char)
  | [] => [[]]
  | c :: cs =>
    if c = ',' then [] :: splitOnComma cs
    else
      match splitOnComma cs with
      | [] => [[c]]
      | g :: gs => (c :: g) :: gs

/-- JS template interpolation of an array destructuring component:
a missing component is `undefined` and interpolates as the string
`"undefined"` in the request URL. -/
def jsInterp (parts : List (List Char)) (i : Nat) : String :=
  match parts.get? i with
  | some l => String.mk l
  | none => "undefined"

/-- The outbound geocoding request built by `resolveAreaName`
(App.jsx lines 81-82): `coords.split(',').map(c => c.trim())`, then the first
two components interpolated as `lat` and `lon`. -/
def geoRequestOf (coords : String) : GeoRequest :=
  let parts := (splitOnComma coords.data).map trimC
  { lat := jsInterp parts 0, lon := jsInterp parts 1 }

/-- The synchronous prefix of `resolveAreaName` (App.jsx lines 77-82): the
guard `areaNames[orderId] || !coords || coords === 'N/A'` returns without a
request; otherwise the request is built and issued.  Note that no pending
marker is written to the cache at this point. -/
def resolveStart (m : AreaMap) (id : Nat) (coords : Option String) : Option GeoRequest :=
  if entryTruthy m id || coords == none || coords == some "" || coords == some "N/A" then
    none
  else
    coords.map geoRequestOf

/-- The response half of `resolveAreaName` (App.jsx lines 83-88): a network or
parse failure, or a body without an `address` member, lands in the `catch`
and leaves the cache unchanged; otherwise the extracted area is stored. -/
def resolveFinish (m : AreaMap) (id : Nat) (out : GeoOutcome) : AreaMap :=
  match out with
  | .netFail => m
  | .response r =>
    match r.address with
    | none => m
    | some a => setArea m id (extractArea a)

/-- `resolveAreaName` run to completion with no interleaved writer, against a
geocoder oracle; also counts the outbound requests it issues (0 or 1). -/
def resolveAreaName (oracle : GeoRequest → GeoOutcome) (m : AreaMap) (id : Nat)
    (coords : Option String) : AreaMap × Nat :=
  match resolveStart m id coords with
  | none => (m, 0)
  | some req => (resolveFinish m id (oracle req), 1)

/-- One event of an enrichment execution: a `resolveAreaName` call reaching
its suspension point (guard evaluated against the current cache, request
issued if the guard passes), or a previously issued request's outcome being
applied.  The state carries the cache and a count of issued requests. -/
inductive RTask where
  | start (id : Nat) (coords : Option String)
  | finish (id : Nat) (out : GeoOutcome)

/-- Apply one enrichment event. -/
def rstep (s : AreaMap × Nat) (t : RTask) : AreaMap × Nat :=
  match t with
  | .start id coords =>
    match resolveStart s.1 id coords with
    | none => s
    | some _ => (s.1, s.2 + 1)
  | .finish id out => (resolveFinish s.1 id out, s.2)

/-- Run a sequence of enrichment events. -/
def rrun (s : AreaMap × Nat) (ts : List RTask) : AreaMap × Nat := ts.foldl rstep s

/-- The coordinates the enrichment effect (App.jsx lines 91-98) reads from an
order: `order.meta_data?.find(m => m.key === 'map_coordinates')?.value`. -/
def coordsOf (order : Order) : Option String :=
  order.meta_data.bind (fun l =>
    (List.find? (fun m => m.key == "map_coordinates") l).map (fun m => m.value))

/-- The enrichment effect body over the loaded orders: for each order whose
coordinates are truthy, a (delayed) `resolveAreaName` call; modelled as the
calls running sequentially, counting issued requests. -/
def enrichmentPass (oracle : GeoRequest → GeoOutcome) (m : AreaMap)
    (orders : List Order) : AreaMap × Nat :=
  orders.foldl
    (fun s order =>
      match coordsOf order with
      | some coords =>
        if coords == "" then s
        else
          let r := resolveAreaName oracle s.1 order.id (some coords)
          (r.1, s.2 + r.2)
      | none => s)
    (m, 0)

/-- `getMetadataValue` (App.jsx lines 100-103). -/
def getMetadataValue (order : Order) (key : String) : String :=
  match order.meta_data.bind (fun l => List.find? (fun m => m.key == key) l) with
  | some item => item.value
  | none => "N/A"

/-- The dashboard state owned by the `App` component: active window id, the
order collection, the loading flag, the error message, and the area cache. -/
structure DashState where
  dateFilter : String
  orders : List Order
  loading : Bool
  error : Option String
  areaNames : AreaMap
deriving DecidableEq

/-- Outcome of the order fetch: parsed data, a non-ok HTTP response (the
source throws `Error('Failed to fetch orders')`), or a transport/parse
exception carrying its message. -/
inductive FetchOutcome where
  | ok (data : List Order)
  | httpNotOk
  | netThrow (msg : String)
deriving DecidableEq

/-- The synchronous prefix of `fetchOrders` (App.jsx lines 52-53):
`setLoading(true); setError(null)`. -/
def fetchStart (s : DashState) : DashState :=
  { s with loading := true, error := none }

/-- Applying a fetch outcome (App.jsx lines 63-70): success stores the parsed
data; a non-ok response or a thrown error stores the message; the `finally`
clears the loading flag.  Nothing here touches `areaNames`. -/
def fetchComplete (s : DashState) : FetchOutcome → DashState
  | .ok data => { s with orders := data, loading := false }
  | .httpNotOk => { s with error := some "Failed to fetch orders", loading := false }
  | .netThrow msg => { s with error := some msg, loading := false }

/-- `fetchOrders` run to completion with no interleaved action. -/
def fetchOrders (s : DashState) (r : FetchOutcome) : DashState :=
  fetchComplete (fetchStart s) r

/-- Selecting a window (the filter buttons, App.jsx lines 141-144 plus the
`useEffect` on lines 73-75): store the new `dateFilter` and start a fetch. -/
def selectWindow (s : DashState) (name : String) : DashState :=
  fetchStart { s with dateFilter := name }

/-- One observable dashboard event: a window selection (which starts a
fetch), or an in-flight fetch resolving.  The source applies a resolving
fetch's outcome unconditionally, with no check that it belongs to the
currently selected window. -/
inductive DashAction where
  | select (name : String)
  | complete (r : FetchOutcome)

/-- Apply one dashboard event. -/
def dashStep (s : DashState) : DashAction → DashState
  | .select name => selectWindow s name
  | .complete r => fetchComplete s r

/-- Run a sequence of dashboard events. -/
def dashRun (s : DashState) (as : List DashAction) : DashState := as.foldl dashStep s

/-! Concrete fixtures used by witnesses and counterexamples. -/

/-- A pending order with no metadata. -/
def order3 : Order := { id := 3, number := "3003", status := "pending", meta_data := none }

/-- Another pending order with no metadata. -/
def order4 : Order := { id := 4, number := "4004", status := "pending", meta_data := none }

/-- An order carrying coordinates in its metadata. -/
def order1 : Order :=
  { id := 1, number := "1001", status := "pending",
    meta_data := some [{ key := "map_coordinates", value := "24.8607,67.0011" }] }

/-- A loaded dashboard state whose only order already has a cached area. -/
def s0 : DashState :=
  { dateFilter := "daily", orders := [order1], loading := false, error := none,
    areaNames := [(1, "Clifton")] }

/-- The initial dashboard state (Loading with the default window). -/
def dashInit : DashState :=
  { dateFilter := "daily", orders := [], loading := true, error := none, areaNames := [] }

/-- A geocoding address whose `suburb` is "Clifton". -/
def cliftonAddr : Address :=
  { suburb := some "Clifton", neighbourhood := none, city_district := none, city := none }

/-- A geocoding address with none of the four sub-fields. -/
def emptyAddr : Address :=
  { suburb := none, neighbourhood := none, city_district := none, city := none }

/-- A geocoding address whose `suburb` is "AreaA". -/
def addrA : Address :=
  { suburb := some "AreaA", neighbourhood := none, city_district := none, city := none }

/-- A geocoding address whose `suburb` is "AreaB". -/
def addrB : Address :=
  { suburb := some "AreaB", neighbourhood := none, city_district := none, city := none }

/-- A geocoding outcome resolving to suburb "AreaA". -/
def respA : GeoOutcome := .response { address := some addrA }

/-- A geocoding outcome resolving to suburb "AreaB". -/
def respB : GeoOutcome := .response { address := some addrB }

/-- The coordinate string used by the spec's own example. -/
def karachiCoords : Option String := some "24.8607,67.0011"

/-! Theorems. -/

/-- C7: `resolveBoundary` on a window name outside the enumerated set fails
with a `ConfigError`, and on each name inside the set it returns the
start-of-day instant the associated number of lookback days before `now`. -/
theorem C7_resolveBoundary_spec (name : String) (now : Int) :
    (name ≠ "daily" → name ≠ "3day" → name ≠ "weekly" → name ≠ "monthly" →
      resolveBoundary name now = .error (.unknownWindow name)) ∧
    resolveBoundary "daily" now = .ok (startOfDay now) ∧
    resolveBoundary "3day" now = .ok (startOfDay now - 3 * minutesPerDay) ∧
    resolveBoundary "weekly" now = .ok (startOfDay now - 7 * minutesPerDay) ∧
    resolveBoundary "monthly" now = .ok (startOfDay now - 30 * minutesPerDay) := by
  refine ⟨?_, ?_, ?_, ?_, ?_⟩
  · intro h1 h2 h3 h4
    have e1 : ("daily" == name) = false := by simp [Ne.symm h1]
    have e2 : ("3day" == name) = false := by simp [Ne.symm h2]
    have e3 : ("weekly" == name) = false := by simp [Ne.symm h3]
    have e4 : ("monthly" == name) = false := by simp [Ne.symm h4]
    simp [resolveBoundary, DATE_FILTERS, List.find?, e1, e2, e3, e4]
  all_goals
    simp [resolveBoundary, DATE_FILTERS, List.find?, startOfDay, subDays, minutesPerDay]
  all_goals omega

/-- C7 witness: concrete instances of both halves. -/
theorem C7_resolveBoundary_spec_witness :
    resolveBoundary "bogus" 100000 = .error (.unknownWindow "bogus") ∧
    resolveBoundary "3day" 100000 = .ok (startOfDay 100000 - 3 * minutesPerDay) :=
  ⟨(C7_resolveBoundary_spec "bogus" 100000).1 (by decide) (by decide) (by decide) (by decide),
   (C7_resolveBoundary_spec "bogus" 100000).2.2.1⟩

/-- C6: a failed fetch stores the error message, clears the loading flag and
leaves the order collection (and everything else) unchanged; a subsequent
retry for the same window can transition to the loaded state, replacing the
orders and clearing the error. -/
theorem C6_fetch_failure_atomic (s : DashState) (msg : String) (data : List Order) :
    (fetchOrders s (.netThrow msg)).error = some msg ∧
    (fetchOrders s (.netThrow msg)).loading = false ∧
    (fetchOrders s (.netThrow msg)).orders = s.orders ∧
    (fetchOrders s (.netThrow msg)).areaNames = s.areaNames ∧
    (fetchOrders s (.netThrow msg)).dateFilter = s.dateFilter ∧
    (fetchOrders s .httpNotOk).error = some "Failed to fetch orders" ∧
    (fetchOrders s .httpNotOk).orders = s.orders ∧
    (fetchOrders (fetchOrders s (.netThrow msg)) (.ok data)).dateFilter = s.dateFilter ∧
    (fetchOrders (fetchOrders s (.netThrow msg)) (.ok data)).orders = data ∧
    (fetchOrders (fetchOrders s (.netThrow msg)) (.ok data)).error = none ∧
    (fetchOrders (fetchOrders s (.netThrow msg)) (.ok data)).loading = false := by
  simp [fetchOrders, fetchStart, fetchComplete]

/-- C2 counterexample: in a loaded state whose order 1 has a cached area,
changing the window and completing the new fetch leaves that cache key
resolvable — a cache key from the prior collection survives the change. -/
theorem C2_cache_survives_window_change :
    s0.orders.map Order.id = [1] ∧
    (fetchComplete (selectWindow s0 "3day") (.ok [])).orders = [] ∧
    lookupArea ((fetchComplete (selectWindow s0 "3day") (.ok [])).areaNames) 1 =
      some "Clifton" := by
  decide

/-- C2 (amended): a window change sets the loading flag, clears the error,
stores the new window, and on success replaces the order collection
wholesale; the `areaNames` cache is left untouched. -/
theorem C2_window_change_behavior (s : DashState) (name : String) (data : List Order) :
    (selectWindow s name).loading = true ∧
    (selectWindow s name).error = none ∧
    (selectWindow s name).dateFilter = name ∧
    (fetchComplete (selectWindow s name) (.ok data)).orders = data ∧
    (fetchComplete (selectWindow s name) (.ok data)).areaNames = s.areaNames := by
  simp [selectWindow, fetchStart, fetchComplete]

/-- C8 counterexample: selecting "3day" then "daily" while both fetches are
in flight, with the daily response applied first and the 3-day response
applied last, ends with the 3-day data displayed under the "daily" window. -/
theorem C8_stale_fetch_overwrites :
    ([order3] : List Order) ≠ [order4] ∧
    (dashRun dashInit
      [.select "3day", .select "daily",
       .complete (.ok [order4]), .complete (.ok [order3])]).dateFilter = "daily" ∧
    (dashRun dashInit
      [.select "3day", .select "daily",
       .complete (.ok [order4]), .complete (.ok [order3])]).orders = [order3] := by
  decide

/-- C8 (amended): fetch completions are applied unconditionally, so the
displayed collection is that of whichever completion is applied last
(last-completion-wins); in particular the window selections themselves never
change the displayed orders. -/
theorem C8_last_completion_wins (s : DashState) (acts : List DashAction) (d : List Order) :
    (dashRun s (acts ++ [.complete (.ok d)])).orders = d ∧
    (dashRun s (acts ++ [.complete (.ok d)])).dateFilter = (dashRun s acts).dateFilter ∧
    (dashRun s [.select "3day", .select "daily", .complete (.ok d)]).orders = d := by
  refine ⟨?_, ?_, ?_⟩ <;>
    simp [dashRun, dashStep, List.foldl_append, fetchComplete, selectWindow, fetchStart]

/-- C10: an order with no `meta_data` yields no coordinates, so the
enrichment pass skips it (no request, no cache entry), and
`getMetadataValue` returns the sentinel instead of throwing. -/
theorem C10_absent_metadata_safe (order : Order) (key : String)
    (oracle : GeoRequest → GeoOutcome) (m : AreaMap)
    (h : order.meta_data = none) :
    coordsOf order = none ∧
    enrichmentPass oracle m [order] = (m, 0) ∧
    getMetadataValue order key = "N/A" := by
  simp [coordsOf, enrichmentPass, getMetadataValue, h]

/-- C10 witness: the theorem at a concrete metadata-less order. -/
theorem C10_absent_metadata_safe_witness :
    coordsOf order3 = none ∧
    enrichmentPass (fun _ => .netFail) [] [order3] = ([], 0) ∧
    getMetadataValue order3 "map_coordinates" = "N/A" :=
  C10_absent_metadata_safe order3 "map_coordinates" (fun _ => .netFail) [] rfl

/-- C5: the per-tab status sets are pairwise disjoint, so classification
places each order in at most one bucket; an order whose status is outside
the known partition lands in no bucket; and the classifier is total over the
tabs (it produces a bucket for every tab, whatever the statuses are). -/
theorem C5_classification_disjoint (orders : List Order) (o : Order)
    (t1 t2 : Tab) (l1 l2 : List Order) :
    (t1 ∈ TABS → t2 ∈ TABS → t1.id ≠ t2.id →
      filteredOrders orders t1.id = some l1 → filteredOrders orders t2.id = some l2 →
      o ∈ l1 → o ∉ l2) ∧
    (o.status ∉ knownStatuses →
      ∀ t ∈ TABS, ∀ l, filteredOrders orders t.id = some l → o ∉ l) ∧
    (∀ t ∈ TABS, ∃ l, filteredOrders orders t.id = some l) := by
  refine ⟨?_, ?_, ?_⟩
  · intro ht1 ht2 hne hf1 hf2 hm1 hm2
    simp only [TABS, List.mem_cons, List.not_mem_nil, or_false] at ht1 ht2
    rcases ht1 with rfl | rfl | rfl | rfl | rfl <;>
      rcases ht2 with rfl | rfl | rfl | rfl | rfl <;>
        first
          | exact hne rfl
          | (simp [filteredOrders, TABS, List.find?, List.contains, List.elem_cons,
               List.elem_nil] at hf1 hf2
             subst hf1
             subst hf2
             simp [List.mem_filter] at hm1 hm2
             simp_all)
  · intro hstat t ht l hf hm
    simp [knownStatuses] at hstat
    simp only [TABS, List.mem_cons, List.not_mem_nil, or_false] at ht
    rcases ht with rfl | rfl | rfl | rfl | rfl <;>
      (simp [filteredOrders, TABS, List.find?, List.contains, List.elem_cons,
         List.elem_nil] at hf
       subst hf
       simp [List.mem_filter] at hm
       simp_all)
  · intro t ht
    simp only [TABS, List.mem_cons, List.not_mem_nil, or_false] at ht
    rcases ht with rfl | rfl | rfl | rfl | rfl <;>
      exact ⟨_, rfl⟩

/-- C5 witness: the theorem at a concrete pending order, two concrete tabs,
and a concrete out-of-partition order. -/
theorem C5_classification_disjoint_witness :
    order3 ∉ ([] : List Order) ∧
    ({ id := 8, number := "8008", status := "weird", meta_data := none } : Order) ∉
      ([] : List Order) :=
  ⟨(C5_classification_disjoint [order3] order3
      { id := "created", label := "New", status := ["pending", "on-hold"] }
      { id := "processed", label := "Processed", status := ["processing"] }
      [order3] []).1 (by decide) (by decide) (by decide) (by decide) (by decide) (by decide),
   (C5_classification_disjoint []
      { id := 8, number := "8008", status := "weird", meta_data := none }
      { id := "created", label := "New", status := ["pending", "on-hold"] }
      { id := "created", label := "New", status := ["pending", "on-hold"] } [] []).2.1
      (by decide)
      { id := "created", label := "New", status := ["pending", "on-hold"] }
      (by decide) [] (by decide)⟩

/-- C4: the stored area label follows the ordered preference list suburb,
neighbourhood, city_district, city — first non-empty wins — and when all four
are absent (or empty) the explicit fallback label is stored; applying a
response whose body carries an address always populates the entry. -/
theorem C4_area_preference_order (a : Address) (m : AreaMap) (id : Nat) :
    (∀ s, a.suburb = some s → s ≠ "" → extractArea a = s) ∧
    (jsTruthy a.suburb = false → ∀ s, a.neighbourhood = some s → s ≠ "" →
      extractArea a = s) ∧
    (jsTruthy a.suburb = false → jsTruthy a.neighbourhood = false →
      ∀ s, a.city_district = some s → s ≠ "" → extractArea a = s) ∧
    (jsTruthy a.suburb = false → jsTruthy a.neighbourhood = false →
      jsTruthy a.city_district = false → ∀ s, a.city = some s → s ≠ "" →
      extractArea a = s) ∧
    (jsTruthy a.suburb = false → jsTruthy a.neighbourhood = false →
      jsTruthy a.city_district = false → jsTruthy a.city = false →
      extractArea a = "Location Linked") ∧
    lookupArea (resolveFinish m id (.response { address := some a })) id =
      some (extractArea a) := by
  rcases a with ⟨su, ne, cd, ci⟩
  refine ⟨?_, ?_, ?_, ?_, ?_, ?_⟩
  · intro s hs hne
    subst hs
    simp [extractArea, jsOr, hne]
  · intro hsu s hs hne
    subst hs
    cases su with
    | none => simp [extractArea, jsOr, hne]
    | some t =>
      simp [jsTruthy] at hsu
      simp [extractArea, jsOr, hsu, hne]
  · intro hsu hnb s hs hne
    subst hs
    cases su with
    | none =>
      cases ne with
      | none => simp [extractArea, jsOr, hne]
      | some t =>
        simp [jsTruthy] at hnb
        simp [extractArea, jsOr, hnb, hne]
    | some t =>
      simp [jsTruthy] at hsu
      cases ne with
      | none => simp [extractArea, jsOr, hsu, hne]
      | some u =>
        simp [jsTruthy] at hnb
        simp [extractArea, jsOr, hsu, hnb, hne]
  · intro hsu hnb hcd s hs hne
    subst hs
    rcases su with _ | t <;> rcases ne with _ | u <;> rcases cd with _ | v <;>
      simp [jsTruthy] at hsu hnb hcd <;>
      simp [extractArea, jsOr, hne] <;>
      simp_all
  · intro hsu hnb hcd hci
    rcases su with _ | t <;> rcases ne with _ | u <;> rcases cd with _ | v <;>
      rcases ci with _ | w <;>
      simp [jsTruthy] at hsu hnb hcd hci <;>
      simp [extractArea, jsOr] <;>
      simp_all
  · simp [resolveFinish, setArea, lookupArea, List.find?]

/-- C4 witness: the spec's own example (suburb "Clifton") and the
all-absent fallback, both via the theorem. -/
theorem C4_area_preference_order_witness :
    extractArea cliftonAddr = "Clifton" ∧
    extractArea emptyAddr = "Location Linked" ∧
    lookupArea (resolveFinish [] 5 (.response { address := some emptyAddr })) 5 =
      some (extractArea emptyAddr) :=
  ⟨(C4_area_preference_order cliftonAddr [] 5).1 "Clifton" rfl (by decide),
   (C4_area_preference_order emptyAddr [] 5).2.2.2.2.1 rfl rfl rfl rfl,
   (C4_area_preference_order emptyAddr [] 5).2.2.2.2.2⟩

/-! Helper lemmas about splitting and trimming coordinate strings, shared by
the enrichment theorems. -/

/-- `some s == none` is false for the option BEq instance. -/
theorem optBeq_some_none (s : String) : (some s == (none : Option String)) = false := rfl

/-- `some s == some t` reduces to `s == t` for the option BEq instance. -/
theorem optBeq_some_some (s t : String) : (some s == some t) = (s == t) := rfl

/-- A character list with no comma forms a single split group. -/
theorem splitOnComma_no_comma {l : List Char} (h : ',' ∉ l) : splitOnComma l = [l] := by
  induction l with
  | nil => rfl
  | cons c cs ih =>
    have hc : c ≠ ',' := by
      rintro rfl
      exact h (List.mem_cons_self _ _)
    have hcs : ',' ∉ cs := fun hm => h (List.mem_cons_of_mem _ hm)
    simp [splitOnComma, hc, ih hcs]

/-- Splitting at the first comma separates the comma-free prefix. -/
theorem splitOnComma_append {l1 l2 : List Char} (h : ',' ∉ l1) :
    splitOnComma (l1 ++ ',' :: l2) = l1 :: splitOnComma l2 := by
  induction l1 with
  | nil => simp [splitOnComma]
  | cons c cs ih =>
    have hc : c ≠ ',' := by
      rintro rfl
      exact h (List.mem_cons_self _ _)
    have hcs : ',' ∉ cs := fun hm => h (List.mem_cons_of_mem _ hm)
    simp [splitOnComma, hc, ih hcs]

/-- `dropWhile` is the identity when no member satisfies the predicate. -/
theorem dropWhile_id_of_all {p : Char → Bool} {l : List Char}
    (h : ∀ c ∈ l, p c = false) : l.dropWhile p = l := by
  cases l with
  | nil => rfl
  | cons c cs => simp [List.dropWhile_cons, h c (List.mem_cons_self c cs)]

/-- `trimRightC` is the identity on whitespace-free lists. -/
theorem trimRightC_id {l : List Char} (h : ∀ c ∈ l, isWs c = false) :
    trimRightC l = l := by
  have hr : ∀ c ∈ l.reverse, isWs c = false := fun c hc => h c (List.mem_reverse.mp hc)
  simp [trimRightC, dropWhile_id_of_all hr]

/-- `trimC` is the identity on whitespace-free lists. -/
theorem trimC_id {l : List Char} (h : ∀ c ∈ l, isWs c = false) : trimC l = l := by
  simp [trimC, trimLeftC, dropWhile_id_of_all h, trimRightC_id h]

/-- `trimC` removes a single trailing space from a whitespace-free list. -/
theorem trimC_append_space {l : List Char} (h : ∀ c ∈ l, isWs c = false) :
    trimC (l ++ [' ']) = l := by
  cases l with
  | nil => decide
  | cons c cs =>
    have hc : isWs c = false := h c (List.mem_cons_self c cs)
    have hr : ∀ x ∈ cs.reverse ++ [c], isWs x = false := by
      intro x hx
      apply h
      rcases List.mem_append.mp hx with h1 | h2
      · exact List.mem_cons_of_mem _ (List.mem_reverse.mp h1)
      · simp at h2
        subst h2
        exact List.mem_cons_self _ _
    simp [trimC, trimLeftC, List.dropWhile_cons, hc, trimRightC,
      List.reverse_append, (by decide : isWs ' ' = true), dropWhile_id_of_all hr]

/-- `trimC` removes a single leading space from a whitespace-free list. -/
theorem trimC_cons_space {l : List Char} (h : ∀ c ∈ l, isWs c = false) :
    trimC (' ' :: l) = l := by
  simp [trimC, trimLeftC, List.dropWhile_cons, isWs, dropWhile_id_of_all h,
    trimRightC_id h]

/-- `geoRequestOf` on a two-component coordinate string: each component is
trimmed and interpolated. -/
theorem geoRequestOf_pair {lat lon : List Char} (h1 : ',' ∉ lat) (h2 : ',' ∉ lon) :
    geoRequestOf (String.mk (lat ++ ',' :: lon)) =
      { lat := String.mk (trimC lat), lon := String.mk (trimC lon) } := by
  simp [geoRequestOf, splitOnComma_append h1, splitOnComma_no_comma h2, jsInterp]

/-- A string is distinct from another when their character lists differ. -/
theorem string_mk_ne_of_data_ne {l : List Char} {t : String} (h : l ≠ t.data) :
    String.mk l ≠ t := by
  intro he
  apply h
  rw [← he]

/-- C1 counterexample: the coordinate string "not-a-coord" passes the guard
of `resolveAreaName`, so one outbound request is issued — with the whole raw
string as `lat` and the literal "undefined" as `lon` — rather than no network
call being made; the cache stays empty and no exception escapes. -/
theorem C1_malformed_coords_call_made :
    resolveStart [] 7 (some "not-a-coord") =
      some { lat := "not-a-coord", lon := "undefined" } ∧
    resolveAreaName (fun _ => .netFail) [] 7 (some "not-a-coord") = ([], 1) := by
  constructor
  · decide
  · decide

/-- C1 (amended): a coordinate string that cannot split into two components
is not rejected locally: one outbound call is issued, with "undefined" as
`lon` when the string has no comma; provided the geocoder answers such a
request with a failure or an address-less body, no cache entry is created
and the caller does not crash — the order remains unenriched. -/
theorem C1_malformed_coords_unenriched (s : String) (m : AreaMap) (id : Nat)
    (oracle : GeoRequest → GeoOutcome)
    (hcomma : ',' ∉ s.data) (hne : s ≠ "") (hna : s ≠ "N/A")
    (hentry : entryTruthy m id = false)
    (hbad : outcomeUnusable (oracle (geoRequestOf s)) = true) :
    (geoRequestOf s).lon = "undefined" ∧
    resolveAreaName oracle m id (some s) = (m, 1) := by
  have hstart : resolveStart m id (some s) = some (geoRequestOf s) := by
    simp [resolveStart, hentry, optBeq_some_none, optBeq_some_some,
      beq_eq_false_iff_ne, hne, hna]
  constructor
  · simp [geoRequestOf, splitOnComma_no_comma hcomma, jsInterp]
  · cases hor : oracle (geoRequestOf s) with
    | netFail => simp [resolveAreaName, hstart, hor, resolveFinish]
    | response r =>
      simp [outcomeUnusable, hor] at hbad
      simp [resolveAreaName, hstart, hor, resolveFinish, hbad]

/-- C1 witness: the amended theorem at the spec's own malformed input. -/
theorem C1_malformed_coords_unenriched_witness :
    (geoRequestOf "not-a-coord").lon = "undefined" ∧
    resolveAreaName (fun _ => .netFail) [] 7 (some "not-a-coord") = ([], 1) :=
  C1_malformed_coords_unenriched "not-a-coord" [] 7 (fun _ => .netFail)
    (by decide) (by decide) (by decide) rfl rfl

/-- C3 counterexample: two resolveAreaName calls for the same
(orderId, coordinates) pair that both pass the guard before either response
is applied issue two outbound calls (not one), and the later response
overwrites the value stored by the earlier one. -/
theorem C3_overlapping_calls_duplicate :
    (rrun ([], 0) [.start 7 karachiCoords, .start 7 karachiCoords,
       .finish 7 respA, .finish 7 respB]).2 = 2 ∧
    lookupArea (rrun ([], 0) [.start 7 karachiCoords, .start 7 karachiCoords,
       .finish 7 respA]).1 7 = some "AreaA" ∧
    lookupArea (rrun ([], 0) [.start 7 karachiCoords, .start 7 karachiCoords,
       .finish 7 respA, .finish 7 respB]).1 7 = some "AreaB" := by
  refine ⟨by decide, by decide, by decide⟩

/-- C3 (amended): a resolveAreaName call finding a populated entry is a
no-op with no outbound call, so two fully sequential resolutions of the same
pair — the second after the first has stored a value — issue exactly one
outbound call in total. -/
theorem C3_resolution_idempotence (oracle : GeoRequest → GeoOutcome) (m : AreaMap)
    (id : Nat) (s : String) :
    (entryTruthy m id = true → resolveAreaName oracle m id (some s) = (m, 0)) ∧
    (s ≠ "" → s ≠ "N/A" → entryTruthy m id = false →
      (resolveAreaName oracle m id (some s)).2 = 1) ∧
    (s ≠ "" → s ≠ "N/A" → entryTruthy m id = false →
      entryTruthy (resolveAreaName oracle m id (some s)).1 id = true →
      (resolveAreaName oracle m id (some s)).2 +
        (resolveAreaName oracle (resolveAreaName oracle m id (some s)).1 id (some s)).2
        = 1) := by
  refine ⟨?_, ?_, ?_⟩
  · intro h
    simp [resolveAreaName, resolveStart, h]
  · intro hne hna hentry
    have hstart : resolveStart m id (some s) = some (geoRequestOf s) := by
      simp [resolveStart, hentry, optBeq_some_none, optBeq_some_some,
        beq_eq_false_iff_ne, hne, hna]
    simp [resolveAreaName, hstart]
  · intro hne hna hentry hres
    have hstart : resolveStart m id (some s) = some (geoRequestOf s) := by
      simp [resolveStart, hentry, optBeq_some_none, optBeq_some_some,
        beq_eq_false_iff_ne, hne, hna]
    have hfirst : (resolveAreaName oracle m id (some s)).2 = 1 := by
      simp [resolveAreaName, hstart]
    have hsecond : ∀ m1 : AreaMap, entryTruthy m1 id = true →
        resolveAreaName oracle m1 id (some s) = (m1, 0) := by
      intro m1 h1
      simp [resolveAreaName, resolveStart, h1]
    rw [hsecond _ hres]
    simp [hfirst]

/-- C3 witness: the amended theorem's sequential clause at the spec's
coordinates, a storing oracle, and an empty cache. -/
theorem C3_resolution_idempotence_witness :
    (resolveAreaName (fun _ => respA) [] 7 (some "24.8607,67.0011")).2 +
      (resolveAreaName (fun _ => respA)
        (resolveAreaName (fun _ => respA) [] 7 (some "24.8607,67.0011")).1 7
        (some "24.8607,67.0011")).2 = 1 :=
  (C3_resolution_idempotence (fun _ => respA) [] 7 "24.8607,67.0011").2.2
    (by decide) (by decide) rfl (by decide)

/-- C9: each comma-separated coordinate component is trimmed before the
request is built, so "lat,lon" and "lat , lon" produce the same outbound
request — and hence `resolveAreaName` behaves identically on both. -/
theorem C9_whitespace_trimmed (lat lon : List Char)
    (hlat : ∀ c ∈ lat, c ≠ ',' ∧ isWs c = false)
    (hlon : ∀ c ∈ lon, c ≠ ',' ∧ isWs c = false) :
    geoRequestOf (String.mk (lat ++ ',' :: lon)) =
      { lat := String.mk lat, lon := String.mk lon } ∧
    geoRequestOf (String.mk (lat ++ ' ' :: ',' :: ' ' :: lon)) =
      { lat := String.mk lat, lon := String.mk lon } ∧
    ∀ oracle m id,
      resolveAreaName oracle m id (some (String.mk (lat ++ ',' :: lon))) =
        resolveAreaName oracle m id (some (String.mk (lat ++ ' ' :: ',' :: ' ' :: lon))) := by
  have hlatc : ',' ∉ lat := fun hm => (hlat _ hm).1 rfl
  have hlonc : ',' ∉ lon := fun hm => (hlon _ hm).1 rfl
  have hlatws : ∀ c ∈ lat, isWs c = false := fun c hc => (hlat c hc).2
  have hlonws : ∀ c ∈ lon, isWs c = false := fun c hc => (hlon c hc).2
  have g1 : geoRequestOf (String.mk (lat ++ ',' :: lon)) =
      { lat := String.mk lat, lon := String.mk lon } := by
    rw [geoRequestOf_pair hlatc hlonc, trimC_id hlatws, trimC_id hlonws]
  have e2 : lat ++ ' ' :: ',' :: ' ' :: lon = (lat ++ [' ']) ++ ',' :: (' ' :: lon) := by
    simp
  have hlatc2 : ',' ∉ lat ++ [' '] := by
    simp [hlatc]
  have hlonc2 : ',' ∉ ' ' :: lon := by
    simp [hlonc]
  have g2 : geoRequestOf (String.mk (lat ++ ' ' :: ',' :: ' ' :: lon)) =
      { lat := String.mk lat, lon := String.mk lon } := by
    rw [e2, geoRequestOf_pair hlatc2 hlonc2, trimC_append_space hlatws,
      trimC_cons_space hlonws]
  refine ⟨g1, g2, ?_⟩
  intro oracle m id
  have m1 : (',' : Char) ∈ lat ++ ',' :: lon := by simp
  have m2 : (',' : Char) ∈ lat ++ ' ' :: ',' :: ' ' :: lon := by simp
  have hne1 : String.mk (lat ++ ',' :: lon) ≠ "" := by
    apply string_mk_ne_of_data_ne
    show lat ++ ',' :: lon ≠ []
    simp
  have hne2 : String.mk (lat ++ ' ' :: ',' :: ' ' :: lon) ≠ "" := by
    apply string_mk_ne_of_data_ne
    show lat ++ ' ' :: ',' :: ' ' :: lon ≠ []
    simp
  have hna1 : String.mk (lat ++ ',' :: lon) ≠ "N/A" := by
    apply string_mk_ne_of_data_ne
    show lat ++ ',' :: lon ≠ ['N', '/', 'A']
    intro h
    have : (',' : Char) ∈ ['N', '/', 'A'] := h ▸ m1
    simp at this
  have hna2 : String.mk (lat ++ ' ' :: ',' :: ' ' :: lon) ≠ "N/A" := by
    apply string_mk_ne_of_data_ne
    show lat ++ ' ' :: ',' :: ' ' :: lon ≠ ['N', '/', 'A']
    intro h
    have : (',' : Char) ∈ ['N', '/', 'A'] := h ▸ m2
    simp at this
  cases hentry : entryTruthy m id with
  | true => simp [resolveAreaName, resolveStart, hentry]
  | false =>
    simp [resolveAreaName, resolveStart, hentry, optBeq_some_none, optBeq_some_some,
      beq_eq_false_iff_ne, hne1, hne2, hna1, hna2, g1, g2]

/-- C9 witness: the theorem at the spec's concrete coordinates. -/
theorem C9_whitespace_trimmed_witness :
    geoRequestOf (String.mk ("24.8607".data ++ ',' :: "67.0011".data)) =
      { lat := "24.8607", lon := "67.0011" } :=
  (C9_whitespace_trimmed "24.8607".data "67.0011".data (by decide) (by decide)).1

end KhasApp
